import Mathlib

/-!
Shallow embedding of the `micro` HTTP service library (packages `server`
and `service`) and proofs about its specification.

The embedding follows the Go source:
* package `server`: functional options, `NewHttpServer` defaults,
  `Address`, `Start` (listener bind, serve-mode choice, drain goroutine)
  and `Stop` (rendezvous-channel exchange);
* package `service`: accumulated service options, lifecycle hooks,
  endpoint decorators (`decorateHandler` and the composition loop in
  `Service.Endpoints`), tracer-provider construction (`initTracer`) and
  the tracing middleware (`trace`), `Service.Start` and `Service.Stop`.

Side-effecting Go code is modelled by explicit state passing; the
rendezvous channel of `HttpServer` is modelled by tracking whether the
drain goroutine is waiting to receive on it; calls that would block
forever or dereference a nil pointer are modelled by explicit outcome
constructors.
-/

namespace Micro

/-! ### package server: options and defaults -/

/-- Embeds `server.Options` (src/server): hostname, port, TLS material
paths and graceful-shutdown timeout in seconds. -/
structure ServerOptions where
  Hostname : String
  Port : Int
  CertificateFile : String
  KeyFile : String
  ShutdownTimeout : Int
deriving DecidableEq, Repr

/-- The Go zero value of `server.Options`, the state before any
functional option is applied in `NewHttpServer`. -/
def serverOptionsZero : ServerOptions :=
  { Hostname := "", Port := 0, CertificateFile := "", KeyFile := "",
    ShutdownTimeout := 0 }

/-- Embeds the functional options of package `server`: `Hostname`,
`Port`, `TLS` and `ShutdownTimeout`. -/
inductive ServerOpt where
  | hostname (h : String)
  | port (p : Int)
  | tls (certFile keyFile : String)
  | shutdownTimeout (t : Int)
deriving DecidableEq, Repr

/-- Applying one functional option to an options record. -/
def applyServerOpt (o : ServerOptions) : ServerOpt → ServerOptions
  | .hostname h => { o with Hostname := h }
  | .port p => { o with Port := p }
  | .tls c k => { o with CertificateFile := c, KeyFile := k }
  | .shutdownTimeout t => { o with ShutdownTimeout := t }

/-- The option-application loop at the top of `NewHttpServer`:
`for _, o := range opts { o(&options) }`. -/
def applyServerOpts (opts : List ServerOpt) : ServerOptions :=
  opts.foldl applyServerOpt serverOptionsZero

/-- The three defaulting `if` statements of `NewHttpServer`, applied in
source order: empty hostname becomes "localhost", a negative port
becomes 0, a non-positive shutdown timeout becomes 5. -/
def applyServerDefaults (o : ServerOptions) : ServerOptions :=
  let o1 := if o.Hostname = "" then { o with Hostname := "localhost" } else o
  let o2 := if o1.Port < 0 then { o1 with Port := 0 } else o1
  if o2.ShutdownTimeout ≤ 0 then { o2 with ShutdownTimeout := 5 } else o2

/-- The options stored by `NewHttpServer`: the supplied functional
options folded over the zero value, then the defaults. -/
def newHttpServerOptions (opts : List ServerOpt) : ServerOptions :=
  applyServerDefaults (applyServerOpts opts)

/-- `fmt.Sprintf("%s:%d", options.Hostname, options.Port)` used for the
initial `address` field of the server. -/
def formatAddress (host : String) (port : Int) : String :=
  host ++ ":" ++ toString port

/-! ### package server: HttpServer state -/

/-- Embeds the `server.HttpServer` struct.  `drainWaiting` models the
rendezvous: it is true exactly while the drain goroutine launched by
`Start` is blocked receiving on the `exit` channel (so a send on `exit`
can complete). -/
structure HttpServerState where
  address : String
  options : ServerOptions
  started : Bool
  drainWaiting : Bool
deriving DecidableEq, Repr

/-- Embeds `NewHttpServer`: folds the options, applies the defaults and
stores the formatted `hostname:port` address.  No goroutine exists yet,
so nothing receives on the `exit` channel. -/
def newHttpServer (opts : List ServerOpt) : HttpServerState :=
  let options := newHttpServerOptions opts
  { address := formatAddress options.Hostname options.Port
    options := options
    started := false
    drainWaiting := false }

/-- Embeds `HttpServer.Address`: returns the current `address` field
(the read lock only orders the access and has no functional content). -/
def HttpServerState.Address (hs : HttpServerState) : String :=
  hs.address

/-- Embeds `HttpServer.Start`.  The environment supplies the result of
`net.Listen`: an error, or the OS-resolved bound address.  On success
the bound address is recorded and the serve and drain goroutines are
launched, leaving the drain goroutine waiting on the `exit` channel.
On a bind error the error is returned and the state is unchanged. -/
def HttpServerState.Start (hs : HttpServerState) (bind : Except String String) :
    Option String × HttpServerState :=
  match bind with
  | .error e => (some e, hs)
  | .ok boundAddr =>
      (none, { hs with address := boundAddr, started := true, drainWaiting := true })

/-- The serve-mode alternatives of the serve goroutine in
`HttpServer.Start`. -/
inductive ServeMode where
  | tls
  | plaintext
deriving DecidableEq, Repr

/-- Embeds the branch of the serve goroutine in `HttpServer.Start`:
`if hs.options.CertificateFile != "" && hs.options.KeyFile != ""` then
`ServeTLS` else `Serve`. -/
def serveMode (o : ServerOptions) : ServeMode :=
  if o.CertificateFile ≠ "" ∧ o.KeyFile ≠ "" then .tls else .plaintext

/-- The serve mode the server's serve goroutine chooses, computed from
the stored options as in the source. -/
def HttpServerState.serveChoice (hs : HttpServerState) : ServeMode :=
  serveMode hs.options

/-- What the drain goroutine of `HttpServer.Start` does once a request
arrives on the `exit` channel, as a function of the result of
`hs.srv.Shutdown`: a shutdown failure is logged, and the value sent
back on the reply channel is the Go literal `nil` in the source
(`ch <- nil`), independent of the shutdown result. -/
structure DrainOutcome where
  loggedError : Option String
  sentToStop : Option String
deriving DecidableEq, Repr

/-- Embeds the body of the drain goroutine after it receives on `exit`:
`if err = hs.srv.Shutdown(ctxShutDown); err != nil { log.Error()... }`
followed by `ch <- nil`. -/
def drainGoroutine (shutdownResult : Option String) : DrainOutcome :=
  { loggedError := shutdownResult, sentToStop := none }

/-- Outcome of a call that in Go may return a value, block forever on a
channel operation with no counterpart, or panic on a nil pointer
dereference. -/
inductive ExecOutcome where
  | returns (e : Option String)
  | blocksForever
  | panics
deriving DecidableEq, Repr

/-- Embeds `HttpServer.Stop`: it sends a fresh reply channel on `exit`
and receives the drain goroutine's answer.  The send completes only if
the drain goroutine is currently waiting on `exit` (after `Start`, and
only once); otherwise the unbuffered send blocks forever.  The
environment supplies the transport's shutdown result seen by the drain
goroutine. -/
def HttpServerState.Stop (hs : HttpServerState) (shutdownResult : Option String) :
    ExecOutcome × HttpServerState :=
  if hs.drainWaiting then
    (.returns (drainGoroutine shutdownResult).sentToStop, { hs with drainWaiting := false })
  else
    (.blocksForever, hs)

/-! ### package service: requests, writers, decorators, tracing -/

/-- The request fields read by the code under verification: the
tracing middleware reads `Method`, `URL.String()`, `RequestURI`,
`Host` and `URL.Scheme`, and rebinds the request context with
`r.WithContext`.  The context is abstracted to a number. -/
structure Request where
  Method : String
  URLString : String
  RequestURI : String
  Host : String
  URLScheme : String
  ctx : Nat
deriving DecidableEq, Repr

/-- Embeds `r.WithContext(c)`: same request with the context rebound. -/
def Request.WithContext (r : Request) (c : Nat) : Request :=
  { r with ctx := c }

/-- Embeds `service.EndpointDecoratorType` with its constants `Before`
and `After`. -/
inductive EndpointDecoratorType where
  | Before
  | After
deriving DecidableEq, Repr

/-- Embeds `service.EndpointDecorator`.  A Go handler or decorator body
mutates the response writer; it is modelled as a state transformer over
an arbitrary state type `σ` (the response-writer state). -/
structure EndpointDecorator (σ : Type) where
  dtype : EndpointDecoratorType
  DecoratorFunc : Request → σ → σ

/-- Embeds `service.BeforeDecorator`. -/
def BeforeDecorator {σ : Type} (df : Request → σ → σ) : EndpointDecorator σ :=
  { dtype := .Before, DecoratorFunc := df }

/-- Embeds `service.AfterDecorator`. -/
def AfterDecorator {σ : Type} (df : Request → σ → σ) : EndpointDecorator σ :=
  { dtype := .After, DecoratorFunc := df }

/-- Embeds `service.decorateHandler`: the returned handler runs the
decorator before the wrapped handler when its type is `Before`, and
after it when its type is `After`. -/
def decorateHandler {σ : Type} (h : Request → σ → σ) (ed : EndpointDecorator σ) :
    Request → σ → σ :=
  fun r s =>
    let s1 := if ed.dtype = .Before then ed.DecoratorFunc r s else s
    let s2 := h r s1
    if ed.dtype = .After then ed.DecoratorFunc r s2 else s2

/-- Embeds the decorator loop in `Service.Endpoints`:
`h := ep.HandlerFunc; for _, d := range ep.Decorators { h = decorateHandler(h, d) }`. -/
def composeDecorators {σ : Type} (hf : Request → σ → σ)
    (ds : List (EndpointDecorator σ)) : Request → σ → σ :=
  ds.foldl decorateHandler hf

/-- Span data recorded by the tracing middleware: tracer name, span
name and the standard attributes set by `trace` in telemetry.go. -/
structure SpanRecord where
  tracerName : String
  spanName : String
  attrs : List (String × String)
deriving DecidableEq, Repr

/-- The response-writer state used for the tracing claims: the bytes
written so far and the status code set by `WriteHeader`, if any. -/
structure Writer where
  body : String
  status : Option Nat
deriving DecidableEq, Repr

/-- Embeds `service.trace` (telemetry.go): starts a span (`spanCtx` is
the span-carrying context produced by `tracer.Start`), sets the
standard attributes, invokes the inner handler on the request with the
rebound context and the untouched writer, and ends the span on return.
The span record is produced alongside, never written to the writer. -/
def trace (h : Request → Writer → Writer) (tracerName spanName : String)
    (spanCtx : Nat) : Request → Writer → Writer × SpanRecord :=
  fun r w =>
    let span : SpanRecord :=
      { tracerName := tracerName
        spanName := spanName
        attrs := [("http.method", r.Method), ("http.url", r.URLString),
                  ("http.target", r.RequestURI), ("http.host", r.Host),
                  ("http.scheme", r.URLScheme)] }
    (h (r.WithContext spanCtx) w, span)

/-- Embeds `service.initTracer` (telemetry.go): constructs a fresh
`TracerProvider` (identified here by the running construction count),
registers it globally, and returns it; the Go function always returns a
nil error.  The pair is (new provider id, updated construction count). -/
def initTracer (providersCreated : Nat) : Nat × Nat :=
  (providersCreated, providersCreated + 1)

/-! ### package service: options, hooks and service state -/

/-- A lifecycle hook: an identifier for its side effect and the error
value it returns when invoked. -/
structure Hook where
  id : Nat
  result : Option String
deriving DecidableEq, Repr

/-- Embeds the hook loops of `Service.Start` and `Service.Stop`:
`for _, fn := range hooks { if err := fn(); err != nil { return err } }`.
Returns the ids of the hooks that were invoked, in invocation order,
together with the error returned from the loop, if any. -/
def runHooks : List Hook → List Nat × Option String
  | [] => ([], none)
  | h :: t =>
      match h.result with
      | some e => ([h.id], some e)
      | none =>
          let r := runHooks t
          (h.id :: r.1, r.2)

/-- Embeds `service.Options`.  The sampler and exporter are abstracted
to optional identifiers (`none` is Go `nil`); the context is an
optional identifier (`none` is Go `nil`, replaced in `Init`). -/
structure ServiceOptions where
  BeforeStart : List Hook
  BeforeStop : List Hook
  AfterStart : List Hook
  AfterStop : List Hook
  Port : Int
  CertificateFile : String
  KeyFile : String
  Context : Option Nat
  Signal : Bool
  Sampler : Option Nat
  Exporter : Option Nat
deriving DecidableEq, Repr

/-- The Go zero value of `service.Options`. -/
def serviceOptionsZero : ServiceOptions :=
  { BeforeStart := [], BeforeStop := [], AfterStart := [], AfterStop := []
    Port := 0, CertificateFile := "", KeyFile := "", Context := none
    Signal := false, Sampler := none, Exporter := none }

/-- Embeds the functional options of package `service`.  The four
hook-registering options append; the others overwrite. -/
inductive ServiceOpt where
  | beforeStart (h : Hook)
  | beforeStop (h : Hook)
  | afterStart (h : Hook)
  | afterStop (h : Hook)
  | port (p : Int)
  | tls (certFile keyFile : String)
  | contextOpt (c : Nat)
  | tracing (sampler exporter : Nat)
deriving DecidableEq, Repr

/-- Applying one service option, as in the source option constructors. -/
def applyServiceOpt (o : ServiceOptions) : ServiceOpt → ServiceOptions
  | .beforeStart h => { o with BeforeStart := o.BeforeStart ++ [h] }
  | .beforeStop h => { o with BeforeStop := o.BeforeStop ++ [h] }
  | .afterStart h => { o with AfterStart := o.AfterStart ++ [h] }
  | .afterStop h => { o with AfterStop := o.AfterStop ++ [h] }
  | .port p => { o with Port := p }
  | .tls c k => { o with CertificateFile := c, KeyFile := k }
  | .contextOpt c => { o with Context := some c }
  | .tracing s e => { o with Sampler := some s, Exporter := some e }

/-- The context id standing for `context.Background()`. -/
def backgroundContext : Nat := 0

/-- A route registration performed by `Service.Endpoints`: the method,
the URI pattern, and the id of the tracer provider the handler was
wrapped with in that iteration (`none` when tracing is off). -/
structure RouteReg where
  method : String
  uri : String
  providerUsed : Option Nat
deriving DecidableEq, Repr

/-- Embeds the `service.Service` struct fields the claims concern.
`providersCreated` counts the `initTracer` calls performed so far (the
number of tracer-provider constructions). -/
structure ServiceState where
  name : String
  version : String
  opts : ServiceOptions
  server : Option HttpServerState
  routes : List RouteReg
  traceProvider : Option Nat
  providersCreated : Nat
deriving DecidableEq, Repr

/-- Embeds `service.NewService`: fresh service with a fresh router and
zero-valued options. -/
def NewService (name version : String) : ServiceState :=
  { name := name, version := version, opts := serviceOptionsZero
    server := none, routes := [], traceProvider := none, providersCreated := 0 }

/-- Embeds `Service.Init`: folds the options over the zero value and
replaces a nil context with `context.Background()`. -/
def ServiceState.Init (s : ServiceState) (opts : List ServiceOpt) : ServiceState :=
  let options := opts.foldl applyServiceOpt serviceOptionsZero
  let options :=
    if options.Context = none then { options with Context := some backgroundContext }
    else options
  { s with opts := options }

/-- Embeds the name and URI fields of `service.Endpoint` used by the
registration loop (the handler function and decorators are modelled
separately by `composeDecorators`, which the same loop applies). -/
structure EndpointSig where
  Name : String
  Method : String
  URI : String
deriving DecidableEq, Repr

/-- One iteration of the loop in `Service.Endpoints`: composes the
decorators (tracked elsewhere), and when both sampler and exporter are
set calls `initTracer`, stores the new provider in `s.traceProvider`
and wraps the handler with it; finally registers the handler under
(method, URI).  `initTracer` never returns an error in the source, so
the iteration is total. -/
def endpointsStep (s : ServiceState) (ep : EndpointSig) : ServiceState :=
  if s.opts.Sampler.isSome ∧ s.opts.Exporter.isSome then
    let tpNew := initTracer s.providersCreated
    { s with providersCreated := tpNew.2
             traceProvider := some tpNew.1
             routes := s.routes ++ [{ method := ep.Method, uri := ep.URI,
                                      providerUsed := some tpNew.1 }] }
  else
    { s with routes := s.routes ++ [{ method := ep.Method, uri := ep.URI,
                                      providerUsed := none }] }

/-- Embeds `Service.Endpoints`: the registration loop over the supplied
endpoints. -/
def ServiceState.Endpoints (s : ServiceState) (eps : List EndpointSig) : ServiceState :=
  eps.foldl endpointsStep s

/-! ### package service: Start and Stop -/

/-- Observable outcome of `Service.Start`: the ids of the BeforeStart
hooks that were invoked, whether `server.NewHttpServer` ran, whether
its `Start` succeeded, the ids of the AfterStart hooks that were
invoked, the error `Service.Start` returned, and the resulting service
state. -/
structure ServiceStartOutcome where
  executedBefore : List Nat
  serverConstructed : Bool
  serverStarted : Bool
  executedAfter : List Nat
  result : Option String
  state : ServiceState
deriving DecidableEq, Repr

/-- Embeds `Service.Start`: BeforeStart hooks fail-fast; then
`s.server = server.NewHttpServer(s.handler, server.Port(s.opts.Port),
server.TLS(s.opts.CertificateFile, s.opts.KeyFile))` and
`s.server.Start()`, whose bind result the environment supplies,
propagating a bind error; then AfterStart hooks fail-fast.  The
signal/cancellation watcher goroutine it spawns last has no synchronous
effect and is not modelled. -/
def ServiceState.Start (s : ServiceState) (bind : Except String String) :
    ServiceStartOutcome :=
  match runHooks s.opts.BeforeStart with
  | (bids, some e) =>
      { executedBefore := bids, serverConstructed := false, serverStarted := false
        executedAfter := [], result := some e, state := s }
  | (bids, none) =>
      let hs := newHttpServer [ServerOpt.port s.opts.Port,
                               ServerOpt.tls s.opts.CertificateFile s.opts.KeyFile]
      match hs.Start bind with
      | (some e, hs') =>
          { executedBefore := bids, serverConstructed := true, serverStarted := false
            executedAfter := [], result := some e, state := { s with server := some hs' } }
      | (none, hs') =>
          match runHooks s.opts.AfterStart with
          | (aids, aerr) =>
              { executedBefore := bids, serverConstructed := true, serverStarted := true
                executedAfter := aids, result := aerr, state := { s with server := some hs' } }

/-- Observable outcome of `Service.Stop`: the ids of the BeforeStop
hooks invoked, whether `s.Server().Stop()` was reached, the ids of the
AfterStop hooks invoked, the context the tracer provider's `Shutdown`
was called with (when it was called), and how the call ended. -/
structure ServiceStopOutcome where
  executedBefore : List Nat
  serverStopReached : Bool
  executedAfter : List Nat
  tracerShutdownCtx : Option (Option Nat)
  outcome : ExecOutcome
deriving DecidableEq, Repr

/-- Embeds `Service.Stop`: BeforeStop hooks fail-fast; then
`s.Server().Stop()` — a nil server panics (nil pointer dereference on
its `exit` channel), an un-started or already-stopped server blocks
forever in the rendezvous send, and an error from `Stop` is returned;
then AfterStop hooks fail-fast; finally, when `s.traceProvider` is not
nil, returns `s.traceProvider.Shutdown(s.opts.Context)`, whose result
the environment supplies; otherwise returns nil.  The environment also
supplies the transport shutdown result seen by the drain goroutine. -/
def ServiceState.Stop (s : ServiceState) (shutdownResult tracerShutdownResult : Option String) :
    ServiceStopOutcome :=
  match runHooks s.opts.BeforeStop with
  | (bids, some e) =>
      { executedBefore := bids, serverStopReached := false, executedAfter := []
        tracerShutdownCtx := none, outcome := .returns (some e) }
  | (bids, none) =>
      match s.server with
      | none =>
          { executedBefore := bids, serverStopReached := true, executedAfter := []
            tracerShutdownCtx := none, outcome := .panics }
      | some hs =>
          match (hs.Stop shutdownResult).1 with
          | .blocksForever =>
              { executedBefore := bids, serverStopReached := true, executedAfter := []
                tracerShutdownCtx := none, outcome := .blocksForever }
          | .panics =>
              { executedBefore := bids, serverStopReached := true, executedAfter := []
                tracerShutdownCtx := none, outcome := .panics }
          | .returns (some e) =>
              { executedBefore := bids, serverStopReached := true, executedAfter := []
                tracerShutdownCtx := none, outcome := .returns (some e) }
          | .returns none =>
              match runHooks s.opts.AfterStop with
              | (aids, some e) =>
                  { executedBefore := bids, serverStopReached := true, executedAfter := aids
                    tracerShutdownCtx := none, outcome := .returns (some e) }
              | (aids, none) =>
                  match s.traceProvider with
                  | some _ =>
                      { executedBefore := bids, serverStopReached := true, executedAfter := aids
                        tracerShutdownCtx := some s.opts.Context
                        outcome := .returns tracerShutdownResult }
                  | none =>
                      { executedBefore := bids, serverStopReached := true, executedAfter := aids
                        tracerShutdownCtx := none, outcome := .returns none }

/-! ### Spec-side characterisations of the hook loops -/

/-- Following the spec's words: runs the hooks in registration order,
aborting after the first failing hook; the ids of the hooks that run. -/
def executedPrefix : List Hook → List Nat
  | [] => []
  | h :: t =>
      match h.result with
      | some _ => [h.id]
      | none => h.id :: executedPrefix t

/-- Following the spec's words: the first failing hook in registration
order, as (id, error), if any. -/
def firstFailure : List Hook → Option (Nat × String)
  | [] => none
  | h :: t =>
      match h.result with
      | some e => some (h.id, e)
      | none => firstFailure t

/-- The source hook loop agrees with the spec-side characterisation:
the invoked hooks are the registration-order prefix up to and including
the first failure, and the returned error is the first failure's. -/
theorem runHooks_eq_spec (hooks : List Hook) :
    runHooks hooks = (executedPrefix hooks, (firstFailure hooks).map Prod.snd) := by
  induction hooks with
  | nil => rfl
  | cons h t ih =>
      cases hr : h.result with
      | some e => simp [runHooks, executedPrefix, firstFailure, hr]
      | none => simp [runHooks, executedPrefix, firstFailure, hr, ih]

/-! ### Concrete fixtures -/

/-- A concrete request used to evaluate the handlers. -/
def reqEx : Request :=
  { Method := "GET", URLString := "/", RequestURI := "/", Host := "localhost"
    URLScheme := "http", ctx := 0 }

/-- A decorator or handler body that records its execution by appending
its tag to the response-writer state. -/
def appendTag (t : Nat) : Request → List Nat → List Nat :=
  fun _ s => s ++ [t]

/-- A server on which `Start` has completed with bound address
`127.0.0.1:8080`, so its drain goroutine waits on the `exit` channel. -/
def hsStartedEx : HttpServerState :=
  ((newHttpServer []).Start (Except.ok "127.0.0.1:8080")).2

/-- A service initialised with a tracing sampler/exporter pair. -/
def svcTracingEx : ServiceState :=
  (NewService "test" "v0.1.0").Init [ServiceOpt.tracing 0 0]

/-- Two endpoint signatures to register on `svcTracingEx`. -/
def epSigA : EndpointSig := { Name := "getRoot", Method := "GET", URI := "/" }

/-- Second endpoint signature. -/
def epSigB : EndpointSig := { Name := "getOther", Method := "GET", URI := "/other" }

/-! ### Decorator-chain composition lemmas -/

/-- Composing a decorator list in one call equals composing its two
halves one after the other (the loop in `Service.Endpoints` is a left
fold). -/
theorem composeDecorators_append {σ : Type} (h : Request → σ → σ)
    (l1 l2 : List (EndpointDecorator σ)) :
    composeDecorators h (l1 ++ l2) = composeDecorators (composeDecorators h l1) l2 := by
  unfold composeDecorators
  rw [List.foldl_append]

/-- Folding tag-recording Before-decorators over a handler runs them
all strictly before the handler, in reverse sequence order: the
last-registered Before-decorator is the outermost wrapper and fires
first. -/
theorem composeDecorators_before_tags (bs : List Nat)
    (h : Request → List Nat → List Nat) (r : Request) (s : List Nat) :
    composeDecorators h (bs.map (fun b => BeforeDecorator (appendTag b))) r s
      = h r (s ++ bs.reverse) := by
  induction bs generalizing h with
  | nil => simp [composeDecorators]
  | cons b t ih =>
      have hstep : composeDecorators h ((b :: t).map (fun b => BeforeDecorator (appendTag b)))
          = composeDecorators (decorateHandler h (BeforeDecorator (appendTag b)))
              (t.map (fun b => BeforeDecorator (appendTag b))) := rfl
      rw [hstep, ih (decorateHandler h (BeforeDecorator (appendTag b)))]
      simp [decorateHandler, BeforeDecorator, appendTag, List.append_assoc]

/-- Folding tag-recording After-decorators over a handler runs them all
strictly after the handler, in sequence order. -/
theorem composeDecorators_after_tags (as : List Nat)
    (h : Request → List Nat → List Nat) (r : Request) (s : List Nat) :
    composeDecorators h (as.map (fun a => AfterDecorator (appendTag a))) r s
      = h r s ++ as := by
  induction as generalizing h with
  | nil => simp [composeDecorators]
  | cons a t ih =>
      have hstep : composeDecorators h ((a :: t).map (fun a => AfterDecorator (appendTag a)))
          = composeDecorators (decorateHandler h (AfterDecorator (appendTag a)))
              (t.map (fun a => AfterDecorator (appendTag a))) := rfl
      rw [hstep, ih (decorateHandler h (AfterDecorator (appendTag a)))]
      simp [decorateHandler, AfterDecorator, appendTag, List.append_assoc]

/-- C1 (counterexample): for the decorator sequence [B1, B2, A1, A2]
with tags 1, 2, 3, 4 around base handler tag 0, the handler composed by
the `Service.Endpoints` loop over `decorateHandler` records the order
B2, B1, H, A1, A2 — not the order B1, B2, H, A1, A2 the claim states. -/
theorem C1_counterexample :
    composeDecorators (appendTag 0)
        [BeforeDecorator (appendTag 1), BeforeDecorator (appendTag 2),
         AfterDecorator (appendTag 3), AfterDecorator (appendTag 4)] reqEx []
      = [2, 1, 0, 3, 4] ∧
    ([2, 1, 0, 3, 4] : List Nat) ≠ [1, 2, 0, 3, 4] := by
  exact ⟨rfl, by decide⟩

/-- C1 (amended): for an endpoint whose decorator sequence is all the
Before-phase decorators followed by all the After-phase decorators,
the composed handler runs every Before-phase decorator strictly before
the base handler but in reverse sequence order, then the base handler,
then every After-phase decorator strictly after it in sequence order. -/
theorem C1_amended_order (bs as : List Nat) (th : Nat) (r : Request) (s : List Nat) :
    composeDecorators (appendTag th)
        (bs.map (fun b => BeforeDecorator (appendTag b))
          ++ as.map (fun a => AfterDecorator (appendTag a))) r s
      = s ++ bs.reverse ++ [th] ++ as := by
  rw [composeDecorators_append, composeDecorators_after_tags,
      composeDecorators_before_tags]
  simp [appendTag, List.append_assoc]

/-- C2 (counterexample): on a started server whose transport shutdown
reports the error "shutdown deadline exceeded", `Stop` still returns
nil — the drain goroutine sends `nil` on the reply channel — so `Stop`
does not return the drain error. -/
theorem C2_counterexample :
    (hsStartedEx.Stop (some "shutdown deadline exceeded")).1 = ExecOutcome.returns none ∧
    ExecOutcome.returns none ≠ ExecOutcome.returns (some "shutdown deadline exceeded") := by
  exact ⟨rfl, by simp⟩

/-- C2 (amended): on a running server, `Stop` blocks until the
drain-completion signal arrives on the rendezvous channel and then
always returns nil; a transport shutdown failure is logged by the drain
goroutine, never returned to the caller of `Stop`. -/
theorem C2_amended (hs : HttpServerState) (shutdownResult : Option String)
    (hdrain : hs.drainWaiting = true) :
    (hs.Stop shutdownResult).1 = ExecOutcome.returns none ∧
    (drainGoroutine shutdownResult).loggedError = shutdownResult ∧
    (drainGoroutine shutdownResult).sentToStop = none := by
  refine ⟨?_, rfl, rfl⟩
  simp [HttpServerState.Stop, hdrain, drainGoroutine]

/-- Witness for C2 (amended) on a concrete started server and a
concrete shutdown failure. -/
theorem C2_amended_witness :
    (hsStartedEx.Stop (some "boom")).1 = ExecOutcome.returns none ∧
    (drainGoroutine (some "boom")).loggedError = some "boom" ∧
    (drainGoroutine (some "boom")).sentToStop = none :=
  C2_amended hsStartedEx (some "boom") rfl

/-- C3 (counterexample): with a sampler/exporter pair configured,
registering two endpoints constructs two tracer providers, so
registration does construct more than one provider. -/
theorem C3_counterexample :
    (svcTracingEx.Endpoints [epSigA, epSigB]).providersCreated = 2 ∧ ¬ (2 : Nat) ≤ 1 := by
  exact ⟨rfl, by decide⟩

/-- Following the amended claim's words: the route registrations a
traced endpoint list produces when the provider constructions start at
`base` — the i-th endpoint's handler is wrapped with the provider
constructed in its own iteration, the (base + i)-th construction. -/
def tracedRoutes (base : Nat) : List EndpointSig → List RouteReg
  | [] => []
  | ep :: t =>
      { method := ep.Method, uri := ep.URI, providerUsed := some base }
        :: tracedRoutes (base + 1) t

/-- C3 (amended): when tracing is configured (sampler and exporter both
set), `Service.Endpoints` constructs one fresh tracer provider per
registered endpoint — registering n endpoints raises the provider
construction count by exactly n — each endpoint's handler is wrapped
with the provider constructed in its own iteration, and
`Service.traceProvider` retains only the most recently constructed
provider. -/
theorem C3_amended (s : ServiceState) (eps : List EndpointSig)
    (hsam : s.opts.Sampler.isSome) (hexp : s.opts.Exporter.isSome) :
    (s.Endpoints eps).providersCreated = s.providersCreated + eps.length ∧
    (s.Endpoints eps).routes = s.routes ++ tracedRoutes s.providersCreated eps ∧
    (eps ≠ [] →
        (s.Endpoints eps).traceProvider
          = some (s.providersCreated + eps.length - 1)) := by
  induction eps generalizing s with
  | nil => simp [ServiceState.Endpoints, tracedRoutes]
  | cons ep t ih =>
      have hstep : endpointsStep s ep
          = { s with providersCreated := s.providersCreated + 1
                     traceProvider := some s.providersCreated
                     routes := s.routes
                       ++ [{ method := ep.Method, uri := ep.URI,
                             providerUsed := some s.providersCreated }] } := by
        unfold endpointsStep
        rw [if_pos ⟨hsam, hexp⟩]
        rfl
      have hfold : s.Endpoints (ep :: t) = (endpointsStep s ep).Endpoints t := rfl
      obtain ⟨ih1, ih2, ih3⟩ :=
        ih (endpointsStep s ep) (by rw [hstep]; exact hsam) (by rw [hstep]; exact hexp)
      refine ⟨?_, ?_, ?_⟩
      · rw [hfold, ih1, hstep]
        simp [List.length_cons]
        omega
      · rw [hfold, ih2, hstep]
        simp [tracedRoutes, List.append_assoc]
      · intro _
        rw [hfold]
        by_cases ht : t = []
        · subst ht
          rw [show (endpointsStep s ep).Endpoints [] = endpointsStep s ep from rfl, hstep]
          simp
        · rw [ih3 ht, hstep]
          simp only [Option.some.injEq, List.length_cons]
          omega

/-- Witness for C3 (amended): the concrete tracing-enabled service with
two endpoints ends with construction count 0 + 2, routes wrapped with
providers 0 and 1 respectively, and provider 1 retained. -/
theorem C3_amended_witness :
    (svcTracingEx.Endpoints [epSigA, epSigB]).providersCreated
        = svcTracingEx.providersCreated + 2 ∧
    (svcTracingEx.Endpoints [epSigA, epSigB]).routes
        = svcTracingEx.routes ++ tracedRoutes svcTracingEx.providersCreated [epSigA, epSigB] ∧
    (svcTracingEx.Endpoints [epSigA, epSigB]).traceProvider
        = some (svcTracingEx.providersCreated + 2 - 1) := by
  have h := C3_amended svcTracingEx [epSigA, epSigB] rfl rfl
  exact ⟨h.1, h.2.1, h.2.2 (by simp)⟩

/-- True exactly for the outcomes in which the call returned a value
(of whichever error) to its caller. -/
def ExecOutcome.isReturns : ExecOutcome → Bool
  | .returns _ => true
  | .blocksForever => false
  | .panics => false

/-- C4 (counterexample): calling `Stop` on a freshly constructed
server, before `Start`, never returns any value — the send on the
`exit` channel has no receiver, so the call blocks forever instead of
being a no-op returning a defined error. -/
theorem C4_counterexample :
    ((newHttpServer []).Stop none).1 = ExecOutcome.blocksForever ∧
    (((newHttpServer []).Stop none).1).isReturns = false :=
  ⟨rfl, rfl⟩

/-- C4 (amended): `Stop` before `Start` and a second `Stop` are not
total: on an `HttpServer` not yet started, `Stop` blocks forever; after
a started server's first `Stop` completes, a second `Stop` blocks
forever; and `Service.Stop` before `Service.Start` runs its BeforeStop
hooks and then panics on the nil server. -/
theorem C4_amended (opts : List ServerOpt) (sr1 sr2 : Option String) (boundAddr : String)
    (s : ServiceState) (hserver : s.server = none)
    (hhooks : firstFailure s.opts.BeforeStop = none) :
    ((newHttpServer opts).Stop sr1).1 = ExecOutcome.blocksForever ∧
    ((((((newHttpServer opts).Start (Except.ok boundAddr)).2).Stop sr1).2).Stop sr2).1
        = ExecOutcome.blocksForever ∧
    (s.Stop sr1 sr2).outcome = ExecOutcome.panics := by
  refine ⟨?_, ?_, ?_⟩
  · simp [HttpServerState.Stop, show (newHttpServer opts).drainWaiting = false from rfl]
  · rfl
  · have h1 : runHooks s.opts.BeforeStop = (executedPrefix s.opts.BeforeStop, none) := by
      rw [runHooks_eq_spec, hhooks]
      rfl
    simp [ServiceState.Stop, h1, hserver]

/-- Witness for C4 (amended) on a fresh server and a fresh service with
no BeforeStop hooks. -/
theorem C4_amended_witness :
    ((newHttpServer []).Stop none).1 = ExecOutcome.blocksForever ∧
    ((((((newHttpServer []).Start (Except.ok "127.0.0.1:1")).2).Stop none).2).Stop none).1
        = ExecOutcome.blocksForever ∧
    ((NewService "n" "v").Stop none none).outcome = ExecOutcome.panics :=
  C4_amended [] none none "127.0.0.1:1" (NewService "n" "v") rfl rfl

/-- C5: `Service.Start` runs the BeforeStart hooks in registration
order and aborts on the first failure, returning that hook's error
before constructing or starting the server; on hook success it
constructs the fresh server and propagates a bind error from its
`Start` immediately, running no AfterStart hook; only then does it run
the AfterStart hooks in order with the same fail-fast policy, leaving
the started server in place (no rollback) and returning the first
AfterStart failure, if any. -/
theorem C5_start_sequencing (s : ServiceState) (bind : Except String String) :
    (s.Start bind).executedBefore = executedPrefix s.opts.BeforeStart ∧
    (∀ i e, firstFailure s.opts.BeforeStart = some (i, e) →
        (s.Start bind).result = some e ∧
        (s.Start bind).serverConstructed = false ∧
        (s.Start bind).serverStarted = false ∧
        (s.Start bind).executedAfter = []) ∧
    (firstFailure s.opts.BeforeStart = none →
        (s.Start bind).serverConstructed = true ∧
        (∀ e, bind = Except.error e →
            (s.Start bind).result = some e ∧
            (s.Start bind).serverStarted = false ∧
            (s.Start bind).executedAfter = []) ∧
        (∀ a, bind = Except.ok a →
            (s.Start bind).serverStarted = true ∧
            (s.Start bind).executedAfter = executedPrefix s.opts.AfterStart ∧
            (s.Start bind).result = (firstFailure s.opts.AfterStart).map Prod.snd)) := by
  cases hb : firstFailure s.opts.BeforeStart with
  | some ie =>
      obtain ⟨i0, e0⟩ := ie
      have hrb : runHooks s.opts.BeforeStart
          = (executedPrefix s.opts.BeforeStart, some e0) := by
        rw [runHooks_eq_spec, hb]
        rfl
      refine ⟨?_, ?_, ?_⟩
      · simp [ServiceState.Start, hrb]
      · intro i e hie
        simp only [Option.some.injEq, Prod.mk.injEq] at hie
        obtain ⟨h1, h2⟩ := hie
        subst h1
        subst h2
        refine ⟨?_, ?_, ?_, ?_⟩ <;> simp [ServiceState.Start, hrb]
      · intro hnone
        exact Option.noConfusion hnone
  | none =>
      have hrb : runHooks s.opts.BeforeStart
          = (executedPrefix s.opts.BeforeStart, none) := by
        rw [runHooks_eq_spec, hb]
        rfl
      have hra : runHooks s.opts.AfterStart
          = (executedPrefix s.opts.AfterStart, (firstFailure s.opts.AfterStart).map Prod.snd) :=
        runHooks_eq_spec s.opts.AfterStart
      cases bind with
      | error e0 =>
          refine ⟨?_, ?_, ?_⟩
          · simp [ServiceState.Start, hrb, HttpServerState.Start]
          · intro i e hie
            exact Option.noConfusion hie
          · intro _
            refine ⟨?_, ?_, ?_⟩
            · simp [ServiceState.Start, hrb, HttpServerState.Start]
            · intro e he
              injection he with h1
              subst h1
              refine ⟨?_, ?_, ?_⟩ <;> simp [ServiceState.Start, hrb, HttpServerState.Start]
            · intro a ha
              exact Except.noConfusion ha
      | ok a0 =>
          refine ⟨?_, ?_, ?_⟩
          · simp [ServiceState.Start, hrb, hra, HttpServerState.Start]
          · intro i e hie
            exact Option.noConfusion hie
          · intro _
            refine ⟨?_, ?_, ?_⟩
            · simp [ServiceState.Start, hrb, hra, HttpServerState.Start]
            · intro e he
              exact Except.noConfusion he
            · intro a ha
              injection ha with h1
              subst h1
              refine ⟨?_, ?_, ?_⟩ <;> simp [ServiceState.Start, hrb, hra, HttpServerState.Start]

/-- A service with one succeeding BeforeStart hook and one failing
AfterStart hook, for the C5 witness. -/
def svcStartEx : ServiceState :=
  (NewService "n" "v").Init
    [ServiceOpt.beforeStart { id := 1, result := none },
     ServiceOpt.afterStart { id := 2, result := some "boom" }]

/-- Witness for C5 on a concrete service whose AfterStart hook fails:
the server is constructed and started, the hook traces match the
spec-side prefixes, and the AfterStart failure is returned. -/
theorem C5_witness :
    (svcStartEx.Start (Except.ok "127.0.0.1:9")).executedBefore
        = executedPrefix svcStartEx.opts.BeforeStart ∧
    (svcStartEx.Start (Except.ok "127.0.0.1:9")).serverConstructed = true ∧
    (svcStartEx.Start (Except.ok "127.0.0.1:9")).serverStarted = true ∧
    (svcStartEx.Start (Except.ok "127.0.0.1:9")).executedAfter
        = executedPrefix svcStartEx.opts.AfterStart ∧
    (svcStartEx.Start (Except.ok "127.0.0.1:9")).result
        = (firstFailure svcStartEx.opts.AfterStart).map Prod.snd := by
  have h := C5_start_sequencing svcStartEx (Except.ok "127.0.0.1:9")
  have hok := (h.2.2 rfl).2.2 "127.0.0.1:9" rfl
  exact ⟨h.1, (h.2.2 rfl).1, hok.1, hok.2.1, hok.2.2⟩

/-- C6: on a running service, `Service.Stop` runs the BeforeStop hooks
in registration order (returning the first failing hook's error
without touching the server), then reaches the owned server's `Stop`,
then runs the AfterStop hooks in order with the same fail-fast policy,
and finally — only when a tracer provider was initialized — shuts the
provider down with the configured cancellation context, returning its
result; when nothing fails it returns nil. -/
theorem C6_stop_sequencing (s : ServiceState) (hs : HttpServerState)
    (sr te : Option String)
    (hserver : s.server = some hs) (hdrain : hs.drainWaiting = true) :
    (s.Stop sr te).executedBefore = executedPrefix s.opts.BeforeStop ∧
    (∀ i e, firstFailure s.opts.BeforeStop = some (i, e) →
        (s.Stop sr te).outcome = ExecOutcome.returns (some e) ∧
        (s.Stop sr te).serverStopReached = false ∧
        (s.Stop sr te).executedAfter = [] ∧
        (s.Stop sr te).tracerShutdownCtx = none) ∧
    (firstFailure s.opts.BeforeStop = none →
        (s.Stop sr te).serverStopReached = true ∧
        (s.Stop sr te).executedAfter = executedPrefix s.opts.AfterStop ∧
        (∀ i e, firstFailure s.opts.AfterStop = some (i, e) →
            (s.Stop sr te).outcome = ExecOutcome.returns (some e) ∧
            (s.Stop sr te).tracerShutdownCtx = none) ∧
        (firstFailure s.opts.AfterStop = none →
            (∀ tp, s.traceProvider = some tp →
                (s.Stop sr te).tracerShutdownCtx = some s.opts.Context ∧
                (s.Stop sr te).outcome = ExecOutcome.returns te) ∧
            (s.traceProvider = none →
                (s.Stop sr te).tracerShutdownCtx = none ∧
                (s.Stop sr te).outcome = ExecOutcome.returns none))) := by
  have hstop : (hs.Stop sr).1 = ExecOutcome.returns none := by
    simp [HttpServerState.Stop, hdrain, drainGoroutine]
  cases hb : firstFailure s.opts.BeforeStop with
  | some ie =>
      obtain ⟨i0, e0⟩ := ie
      have hrb : runHooks s.opts.BeforeStop
          = (executedPrefix s.opts.BeforeStop, some e0) := by
        rw [runHooks_eq_spec, hb]
        rfl
      refine ⟨?_, ?_, ?_⟩
      · simp [ServiceState.Stop, hrb]
      · intro i e hie
        simp only [Option.some.injEq, Prod.mk.injEq] at hie
        obtain ⟨h1, h2⟩ := hie
        subst h1
        subst h2
        refine ⟨?_, ?_, ?_, ?_⟩ <;> simp [ServiceState.Stop, hrb]
      · intro hnone
        exact Option.noConfusion hnone
  | none =>
      have hrb : runHooks s.opts.BeforeStop
          = (executedPrefix s.opts.BeforeStop, none) := by
        rw [runHooks_eq_spec, hb]
        rfl
      cases ha : firstFailure s.opts.AfterStop with
      | some ae =>
          obtain ⟨ai, ae0⟩ := ae
          have hra : runHooks s.opts.AfterStop
              = (executedPrefix s.opts.AfterStop, some ae0) := by
            rw [runHooks_eq_spec, ha]
            rfl
          refine ⟨?_, ?_, ?_⟩
          · simp [ServiceState.Stop, hrb, hserver, hstop, hra]
          · intro i e hie
            exact Option.noConfusion hie
          · intro _
            refine ⟨?_, ?_, ?_, ?_⟩
            · simp [ServiceState.Stop, hrb, hserver, hstop, hra]
            · simp [ServiceState.Stop, hrb, hserver, hstop, hra]
            · intro i e hie
              simp only [Option.some.injEq, Prod.mk.injEq] at hie
              obtain ⟨h1, h2⟩ := hie
              subst h1
              subst h2
              constructor <;> simp [ServiceState.Stop, hrb, hserver, hstop, hra]
            · intro hnone
              exact Option.noConfusion hnone
      | none =>
          have hra : runHooks s.opts.AfterStop
              = (executedPrefix s.opts.AfterStop, none) := by
            rw [runHooks_eq_spec, ha]
            rfl
          cases htp : s.traceProvider with
          | some tp0 =>
              refine ⟨?_, ?_, ?_⟩
              · simp [ServiceState.Stop, hrb, hserver, hstop, hra, htp]
              · intro i e hie
                exact Option.noConfusion hie
              · intro _
                refine ⟨?_, ?_, ?_, ?_⟩
                · simp [ServiceState.Stop, hrb, hserver, hstop, hra, htp]
                · simp [ServiceState.Stop, hrb, hserver, hstop, hra, htp]
                · intro i e hie
                  exact Option.noConfusion hie
                · intro _
                  constructor
                  · intro tp htp2
                    constructor <;> simp [ServiceState.Stop, hrb, hserver, hstop, hra, htp]
                  · intro hn
                    exact Option.noConfusion hn
          | none =>
              refine ⟨?_, ?_, ?_⟩
              · simp [ServiceState.Stop, hrb, hserver, hstop, hra, htp]
              · intro i e hie
                exact Option.noConfusion hie
              · intro _
                refine ⟨?_, ?_, ?_, ?_⟩
                · simp [ServiceState.Stop, hrb, hserver, hstop, hra, htp]
                · simp [ServiceState.Stop, hrb, hserver, hstop, hra, htp]
                · intro i e hie
                  exact Option.noConfusion hie
                · intro _
                  constructor
                  · intro tp htp2
                    exact Option.noConfusion htp2
                  · intro _
                    constructor <;> simp [ServiceState.Stop, hrb, hserver, hstop, hra, htp]

/-- A running service with one BeforeStop and one AfterStop hook, a
started server and an initialized tracer provider, for the C6
witness. -/
def svcStopEx : ServiceState :=
  { (NewService "n" "v").Init
      [ServiceOpt.beforeStop { id := 1, result := none },
       ServiceOpt.afterStop { id := 2, result := none }] with
    server := some hsStartedEx
    traceProvider := some 0 }

/-- Witness for C6 on the concrete running service: both hook phases
run fully, the server stop is reached, and the tracer provider is shut
down with the configured context, yielding a nil result. -/
theorem C6_witness :
    (svcStopEx.Stop none none).executedBefore = executedPrefix svcStopEx.opts.BeforeStop ∧
    (svcStopEx.Stop none none).serverStopReached = true ∧
    (svcStopEx.Stop none none).executedAfter = executedPrefix svcStopEx.opts.AfterStop ∧
    (svcStopEx.Stop none none).tracerShutdownCtx = some svcStopEx.opts.Context ∧
    (svcStopEx.Stop none none).outcome = ExecOutcome.returns none := by
  have h := C6_stop_sequencing svcStopEx hsStartedEx none none rfl rfl
  have hok := h.2.2 rfl
  have htp := (hok.2.2.2 rfl).1 0 rfl
  exact ⟨h.1, hok.1, hok.2.1, htp.1, htp.2⟩

/-- C7: the handler wrapped by the tracing middleware hands the
response writer to the inner handler untouched and writes nothing of
its own; for every inner handler whose response does not depend on the
request context, the wrapped handler produces exactly the same
response body and status code as the unwrapped handler (the middleware
only records a span and rebinds the request context). -/
theorem C7_trace_preserves_response (h : Request → Writer → Writer)
    (tn sn : String) (c : Nat) (r : Request) (w : Writer)
    (hctx : ∀ c', h (r.WithContext c') w = h r w) :
    (trace h tn sn c r w).1 = h r w ∧
    ((trace h tn sn c r w).1).body = (h r w).body ∧
    ((trace h tn sn c r w).1).status = (h r w).status := by
  have h1 : (trace h tn sn c r w).1 = h (r.WithContext c) w := rfl
  rw [h1, hctx c]
  exact ⟨rfl, rfl, rfl⟩

/-- A concrete context-oblivious inner handler for the C7 witness. -/
def handlerEx : Request → Writer → Writer :=
  fun _ w => { body := w.body ++ "Hello World!", status := some 200 }

/-- Witness for C7 on the concrete handler, request and empty writer. -/
theorem C7_witness :
    (trace handlerEx "test" "getRoot" 7 reqEx { body := "", status := none }).1
        = handlerEx reqEx { body := "", status := none } ∧
    ((trace handlerEx "test" "getRoot" 7 reqEx { body := "", status := none }).1).body
        = (handlerEx reqEx { body := "", status := none }).body ∧
    ((trace handlerEx "test" "getRoot" 7 reqEx { body := "", status := none }).1).status
        = (handlerEx reqEx { body := "", status := none }).status :=
  C7_trace_preserves_response handlerEx "test" "getRoot" 7 reqEx
    { body := "", status := none } (fun _ => rfl)

/-- Field-by-field description of the three defaulting `if` statements
of `NewHttpServer`. -/
theorem applyServerDefaults_fields (o : ServerOptions) :
    (applyServerDefaults o).Hostname
        = (if o.Hostname = "" then "localhost" else o.Hostname) ∧
    (applyServerDefaults o).Port = (if o.Port < 0 then 0 else o.Port) ∧
    (applyServerDefaults o).ShutdownTimeout
        = (if o.ShutdownTimeout ≤ 0 then 5 else o.ShutdownTimeout) ∧
    (applyServerDefaults o).CertificateFile = o.CertificateFile ∧
    (applyServerDefaults o).KeyFile = o.KeyFile := by
  by_cases h1 : o.Hostname = "" <;> by_cases h2 : o.Port < 0 <;>
    by_cases h3 : o.ShutdownTimeout ≤ 0 <;>
      simp [applyServerDefaults, h1, h2, h3]

/-- C8: for every option combination, `NewHttpServer` turns an empty
hostname into "localhost", a negative port into 0 and a non-positive
shutdown timeout into 5, keeps every other supplied value unchanged
(including both TLS paths), and the stored options are never modified
afterwards by `Start`. -/
theorem C8_defaults (opts : List ServerOpt) :
    ((newHttpServerOptions opts).Hostname
        = (if (applyServerOpts opts).Hostname = "" then "localhost"
           else (applyServerOpts opts).Hostname)) ∧
    ((newHttpServerOptions opts).Port
        = (if (applyServerOpts opts).Port < 0 then 0 else (applyServerOpts opts).Port)) ∧
    ((newHttpServerOptions opts).ShutdownTimeout
        = (if (applyServerOpts opts).ShutdownTimeout ≤ 0 then 5
           else (applyServerOpts opts).ShutdownTimeout)) ∧
    (newHttpServerOptions opts).CertificateFile = (applyServerOpts opts).CertificateFile ∧
    (newHttpServerOptions opts).KeyFile = (applyServerOpts opts).KeyFile ∧
    (∀ bind, (((newHttpServer opts).Start bind).2).options = newHttpServerOptions opts) := by
  have h := applyServerDefaults_fields (applyServerOpts opts)
  refine ⟨h.1, h.2.1, h.2.2.1, h.2.2.2.1, h.2.2.2.2, ?_⟩
  intro bind
  cases bind <;> rfl

/-- C9: the serve goroutine of `HttpServer.Start` serves TLS exactly
when both the certificate path and the key path in the server's
options are non-empty, and serves plaintext exactly when at least one
of the two is empty. -/
theorem C9_tls_iff (hs : HttpServerState) :
    (hs.serveChoice = ServeMode.tls
        ↔ hs.options.CertificateFile ≠ "" ∧ hs.options.KeyFile ≠ "") ∧
    (hs.serveChoice = ServeMode.plaintext
        ↔ hs.options.CertificateFile = "" ∨ hs.options.KeyFile = "") := by
  unfold HttpServerState.serveChoice serveMode
  by_cases h1 : hs.options.CertificateFile = "" <;>
    by_cases h2 : hs.options.KeyFile = "" <;> simp [h1, h2]

/-- A server constructed with both TLS paths, for the C9 witness. -/
def hsTlsEx : HttpServerState :=
  newHttpServer [ServerOpt.tls "cert.pem" "key.pem"]

/-- Witness for C9: with both paths set the choice is TLS; with neither
set (and also when exactly one is set) it is plaintext. -/
theorem C9_witness :
    hsTlsEx.serveChoice = ServeMode.tls ∧
    (newHttpServer []).serveChoice = ServeMode.plaintext ∧
    (newHttpServer [ServerOpt.tls "cert.pem" ""]).serveChoice = ServeMode.plaintext := by
  refine ⟨?_, ?_, ?_⟩
  · exact (C9_tls_iff hsTlsEx).1.mpr ⟨by decide, by decide⟩
  · exact (C9_tls_iff (newHttpServer [])).2.mpr (Or.inl (by decide))
  · exact (C9_tls_iff (newHttpServer [ServerOpt.tls "cert.pem" ""])).2.mpr (Or.inr (by decide))

/-- C10: `Address` on a server that has not been started returns the
configured post-default "hostname:port" string — a non-empty string,
"localhost:0" for an ephemeral-port configuration — and only after a
successful `Start` does it return the OS-resolved bound address. -/
theorem C10_address (opts : List ServerOpt) :
    (newHttpServer opts).Address
        = formatAddress (newHttpServerOptions opts).Hostname (newHttpServerOptions opts).Port ∧
    0 < ((newHttpServer opts).Address).length ∧
    (∀ a, ((((newHttpServer opts).Start (Except.ok a)).2)).Address = a) ∧
    (newHttpServer [ServerOpt.port (-1)]).Address = "localhost:0" := by
  refine ⟨rfl, ?_, fun a => rfl, by decide⟩
  show 0 < (formatAddress (newHttpServerOptions opts).Hostname
      (newHttpServerOptions opts).Port).length
  unfold formatAddress
  rw [String.length_append, String.length_append]
  have h1 : (":" : String).length = 1 := rfl
  omega

end Micro
